import Mathlib

/-!
Shallow embedding of the pymodoro timer core (src/pymodoro/timer/core.py,
src/pymodoro/timer/states.py, src/pymodoro/timer/controller.py).

Each Python method of `PomodoroTimer` becomes a pure function from the timer
record to a pair of the updated record and the list of Qt signals emitted
during the call, in emission order.  The Qt countdown timer is modelled by
the boolean field `timer_active`; its 1-second timeout callback is the
`tick` function.  Integers are Lean `Int` (Python ints are unbounded);
Python floor division and modulo on a positive divisor coincide with
`Int.fdiv` / `Int.fmod`.
-/

namespace Pymodoro

/-- The `TimerState` enumeration from states.py. -/
inductive TimerState where
  | IDLE
  | WORK
  | SHORT_BREAK
  | LONG_BREAK
  | PAUSED
deriving DecidableEq

/-- A Qt signal emission by the timer core: `state_changed`, `time_changed`
or `session_completed`, with its payload. -/
inductive Signal where
  | state_changed (s : TimerState)
  | time_changed (n : Int)
  | session_completed (s : TimerState)
deriving DecidableEq

/-- The configuration surface the core reads (ConfigProvider / BaseConfig):
durations in seconds and the long-break cadence. -/
structure Config where
  work_duration_seconds : Int
  short_break_duration_seconds : Int
  long_break_duration_seconds : Int
  sessions_until_long_break : Int
deriving DecidableEq

/-- The mutable attributes of `PomodoroTimer`, plus `timer_active` standing
for whether the Qt countdown timer is running. -/
structure PomodoroTimer where
  current_state : TimerState
  previous_state : TimerState
  remaining_seconds : Int
  current_session : Int
  timer_active : Bool
deriving DecidableEq

/-- The state built by `PomodoroTimer.__init__`. -/
def initTimer : PomodoroTimer :=
  { current_state := TimerState.IDLE
    previous_state := TimerState.IDLE
    remaining_seconds := 0
    current_session := 1
    timer_active := false }

/-- `PomodoroTimer._change_state`: update `current_state` and emit
`state_changed` only when the new state differs from the old one. -/
def change_state (t : PomodoroTimer) (new_state : TimerState) :
    PomodoroTimer × List Signal :=
  if new_state ≠ t.current_state then
    ({ t with current_state := new_state }, [Signal.state_changed new_state])
  else
    (t, [])

/-- `PomodoroTimer._start_timer`: start the Qt timer and emit `time_changed`
with the current `remaining_seconds`. -/
def start_timer (t : PomodoroTimer) : PomodoroTimer × List Signal :=
  ({ t with timer_active := true }, [Signal.time_changed t.remaining_seconds])

/-- `PomodoroTimer.start_work_session`: no-op unless IDLE; otherwise switch
to WORK, load the work duration and start the countdown. -/
def start_work_session (cfg : Config) (t : PomodoroTimer) :
    PomodoroTimer × List Signal :=
  if t.current_state ≠ TimerState.IDLE then
    (t, [])
  else
    let p1 := change_state t TimerState.WORK
    let t2 := { p1.1 with remaining_seconds := cfg.work_duration_seconds }
    let p3 := start_timer t2
    (p3.1, p1.2 ++ p3.2)

/-- `PomodoroTimer.start_break`: no-op unless WORK; otherwise choose long or
short break from `completed_sessions = current_session - 1`, load the
matching duration and start the countdown. -/
def start_break (cfg : Config) (t : PomodoroTimer) :
    PomodoroTimer × List Signal :=
  if t.current_state ≠ TimerState.WORK then
    (t, [])
  else
    let completed_sessions := t.current_session - 1
    if 0 < completed_sessions ∧
        completed_sessions % cfg.sessions_until_long_break = 0 then
      let p1 := change_state t TimerState.LONG_BREAK
      let t2 := { p1.1 with remaining_seconds := cfg.long_break_duration_seconds }
      let p3 := start_timer t2
      (p3.1, p1.2 ++ p3.2)
    else
      let p1 := change_state t TimerState.SHORT_BREAK
      let t2 := { p1.1 with remaining_seconds := cfg.short_break_duration_seconds }
      let p3 := start_timer t2
      (p3.1, p1.2 ++ p3.2)

/-- `PomodoroTimer.pause`: from a counting-down state, stop the Qt timer,
remember the state in `previous_state` and switch to PAUSED. -/
def pause (t : PomodoroTimer) : PomodoroTimer × List Signal :=
  if t.current_state = TimerState.WORK ∨ t.current_state = TimerState.SHORT_BREAK ∨
      t.current_state = TimerState.LONG_BREAK then
    let t1 := { t with timer_active := false, previous_state := t.current_state }
    change_state t1 TimerState.PAUSED
  else
    (t, [])

/-- `PomodoroTimer.resume`: from PAUSED, restore `previous_state` and restart
the countdown from the current `remaining_seconds`. -/
def resume (t : PomodoroTimer) : PomodoroTimer × List Signal :=
  if t.current_state = TimerState.PAUSED then
    let p1 := change_state t t.previous_state
    let p2 := start_timer p1.1
    (p2.1, p1.2 ++ p2.2)
  else
    (t, [])

/-- `PomodoroTimer.reset`: stop the Qt timer, go to IDLE and reinitialise
`previous_state`, `remaining_seconds` and `current_session`. -/
def reset (t : PomodoroTimer) : PomodoroTimer × List Signal :=
  let t1 := { t with timer_active := false }
  let p2 := change_state t1 TimerState.IDLE
  ({ p2.1 with
      previous_state := TimerState.IDLE
      remaining_seconds := 0
      current_session := 1 }, p2.2)

/-- `PomodoroTimer._timer_finished`: stop the Qt timer; on WORK completion
increment the session counter, emit `session_completed(WORK)` and call
`start_break`; on break completion go IDLE and emit `session_completed`. -/
def timer_finished (cfg : Config) (t : PomodoroTimer) :
    PomodoroTimer × List Signal :=
  let t0 := { t with timer_active := false }
  if t0.current_state = TimerState.WORK then
    let t1 := { t0 with current_session := t0.current_session + 1 }
    let p2 := start_break cfg t1
    (p2.1, Signal.session_completed TimerState.WORK :: p2.2)
  else if t0.current_state = TimerState.SHORT_BREAK ∨
      t0.current_state = TimerState.LONG_BREAK then
    let p1 := change_state t0 TimerState.IDLE
    (p1.1, p1.2 ++ [Signal.session_completed t0.current_state])
  else
    (t0, [])

/-- `PomodoroTimer._tick`: decrement `remaining_seconds`, emit `time_changed`
with the decremented value, then run completion handling when it is ≤ 0. -/
def tick (cfg : Config) (t : PomodoroTimer) : PomodoroTimer × List Signal :=
  let t1 := { t with remaining_seconds := t.remaining_seconds - 1 }
  if t1.remaining_seconds ≤ 0 then
    let p2 := timer_finished cfg t1
    (p2.1, Signal.time_changed t1.remaining_seconds :: p2.2)
  else
    (t1, [Signal.time_changed t1.remaining_seconds])

/-- Zero-padding to two digits, the behaviour of Python format spec `02d`
for the values at hand (a sign already fills the width for negatives). -/
def pad2 (n : Int) : String :=
  if 0 ≤ n ∧ n < 10 then "0" ++ toString n else toString n

/-- `PomodoroTimer.get_time_display`: mm:ss rendering of a countdown value,
with Python floor division and modulo. -/
def get_time_display (remaining_seconds : Int) : String :=
  let minutes := Int.fdiv remaining_seconds 60
  let seconds := Int.fmod remaining_seconds 60
  pad2 minutes ++ ":" ++ pad2 seconds

/-- `TimerController.start_or_resume`: dispatch on the core state; the
logging in the fallthrough branch touches no timer attribute. -/
def start_or_resume (cfg : Config) (t : PomodoroTimer) :
    PomodoroTimer × List Signal :=
  if t.current_state = TimerState.IDLE then
    start_work_session cfg t
  else if t.current_state = TimerState.PAUSED then
    resume t
  else
    (t, [])

/-- `TimerController.pause_or_resume`: dispatch on the core state; the
logging in the fallthrough branch touches no timer attribute. -/
def pause_or_resume (t : PomodoroTimer) : PomodoroTimer × List Signal :=
  if t.current_state = TimerState.WORK ∨ t.current_state = TimerState.SHORT_BREAK ∨
      t.current_state = TimerState.LONG_BREAK then
    pause t
  else if t.current_state = TimerState.PAUSED then
    resume t
  else
    (t, [])

/-- A step of the system: one public command, the internal `start_break`,
or a 1-second timeout, which fires only while the Qt timer is running. -/
inductive Command where
  | startWork
  | startBreak
  | pauseCmd
  | resumeCmd
  | resetCmd
  | tickCmd
deriving DecidableEq

/-- Apply one command to the timer. -/
def apply_command (cfg : Config) (t : PomodoroTimer) :
    Command → PomodoroTimer × List Signal
  | Command.startWork => start_work_session cfg t
  | Command.startBreak => start_break cfg t
  | Command.pauseCmd => pause t
  | Command.resumeCmd => resume t
  | Command.resetCmd => reset t
  | Command.tickCmd => if t.timer_active then tick cfg t else (t, [])

/-- States reachable from the initial state by sequences of commands/ticks. -/
inductive Reachable (cfg : Config) : PomodoroTimer → Prop where
  | init : Reachable cfg initTimer
  | step (t : PomodoroTimer) (c : Command) :
      Reachable cfg t → Reachable cfg (apply_command cfg t c).1

/-- Modelled from the spec: "Display formatting: the core exposes a mm:ss
string derived from `remaining_seconds`"; minutes = value div 60 and
seconds = value mod 60, each zero-padded to two digits (Nat arithmetic:
the spec restricts this to non-negative values). -/
def spec_time_display (n : Nat) : String :=
  (if n / 60 < 10 then "0" ++ toString (n / 60) else toString (n / 60)) ++ ":" ++
    (if n % 60 < 10 then "0" ++ toString (n % 60) else toString (n % 60))

/-- A sample configuration (the defaults: 25/5/15 minutes, cadence 4). -/
def sampleConfig : Config :=
  { work_duration_seconds := 1500
    short_break_duration_seconds := 300
    long_break_duration_seconds := 900
    sessions_until_long_break := 4 }

/-- A sample state: fourth work session counting down its last second. -/
def sampleWork : PomodoroTimer :=
  { current_state := TimerState.WORK
    previous_state := TimerState.IDLE
    remaining_seconds := 1
    current_session := 4
    timer_active := true }

/-- A sample state: a running work session mid-countdown. -/
def sampleRunningWork : PomodoroTimer :=
  { current_state := TimerState.WORK
    previous_state := TimerState.IDLE
    remaining_seconds := 100
    current_session := 3
    timer_active := true }

/-- A sample state: a short break counting down its last second. -/
def sampleShortBreak : PomodoroTimer :=
  { current_state := TimerState.SHORT_BREAK
    previous_state := TimerState.IDLE
    remaining_seconds := 1
    current_session := 2
    timer_active := true }

/-- C5: from every state, `reset` yields current_state = IDLE,
previous_state = IDLE, remaining_seconds = 0 and current_session = 1. -/
theorem C5_reset_reinitialises (t : PomodoroTimer) :
    (reset t).1.current_state = TimerState.IDLE ∧
    (reset t).1.previous_state = TimerState.IDLE ∧
    (reset t).1.remaining_seconds = 0 ∧
    (reset t).1.current_session = 1 := by
  by_cases h : TimerState.IDLE = t.current_state
  · simp [reset, change_state, ← h]
  · simp [reset, change_state, h]

/-- C6: from WORK, SHORT_BREAK, LONG_BREAK or PAUSED, `start_work_session`
is a silent no-op: the state is unchanged and no signal is emitted. -/
theorem C6_start_work_no_op_outside_idle (cfg : Config) (t : PomodoroTimer)
    (h : t.current_state = TimerState.WORK ∨ t.current_state = TimerState.SHORT_BREAK ∨
      t.current_state = TimerState.LONG_BREAK ∨ t.current_state = TimerState.PAUSED) :
    start_work_session cfg t = (t, []) := by
  unfold start_work_session
  rcases h with h | h | h | h <;> simp [h]

/-- C6 witness at a concrete counting-down WORK state. -/
theorem C6_start_work_no_op_outside_idle_witness :
    sampleWork.current_state = TimerState.WORK ∧
    start_work_session sampleConfig sampleWork = (sampleWork, []) :=
  ⟨rfl, C6_start_work_no_op_outside_idle sampleConfig sampleWork (Or.inl rfl)⟩

/-- C4: from a counting-down state, `pause` then `resume` restores
`current_state` and leaves `remaining_seconds` and `current_session`
untouched through both commands. -/
theorem C4_pause_resume_round_trip (t : PomodoroTimer)
    (h : t.current_state = TimerState.WORK ∨ t.current_state = TimerState.SHORT_BREAK ∨
      t.current_state = TimerState.LONG_BREAK) :
    (pause t).1.remaining_seconds = t.remaining_seconds ∧
    (pause t).1.current_session = t.current_session ∧
    (resume (pause t).1).1.current_state = t.current_state ∧
    (resume (pause t).1).1.remaining_seconds = t.remaining_seconds ∧
    (resume (pause t).1).1.current_session = t.current_session := by
  rcases h with h | h | h <;>
    simp [pause, resume, change_state, start_timer, h]

/-- C4 witness at a concrete counting-down WORK state. -/
theorem C4_pause_resume_round_trip_witness :
    sampleRunningWork.current_state = TimerState.WORK ∧
    (resume (pause sampleRunningWork).1).1.current_state =
      sampleRunningWork.current_state ∧
    (resume (pause sampleRunningWork).1).1.remaining_seconds =
      sampleRunningWork.remaining_seconds :=
  ⟨rfl, (C4_pause_resume_round_trip sampleRunningWork (Or.inl rfl)).2.2.1,
    (C4_pause_resume_round_trip sampleRunningWork (Or.inl rfl)).2.2.2.1⟩

/-- C8: the controller dispatches purely on the core state:
`start_or_resume` is exactly `start_work_session` from IDLE, exactly
`resume` from PAUSED, and the identity with no signals otherwise;
`pause_or_resume` is exactly `pause` from a counting-down state, exactly
`resume` from PAUSED, and the identity with no signals from IDLE. -/
theorem C8_controller_dispatch (cfg : Config) (t : PomodoroTimer) :
    (t.current_state = TimerState.IDLE →
      start_or_resume cfg t = start_work_session cfg t) ∧
    (t.current_state = TimerState.PAUSED → start_or_resume cfg t = resume t) ∧
    (t.current_state = TimerState.WORK ∨ t.current_state = TimerState.SHORT_BREAK ∨
        t.current_state = TimerState.LONG_BREAK →
      start_or_resume cfg t = (t, []) ∧ pause_or_resume t = pause t) ∧
    (t.current_state = TimerState.PAUSED → pause_or_resume t = resume t) ∧
    (t.current_state = TimerState.IDLE → pause_or_resume t = (t, [])) := by
  cases ht : t.current_state <;>
    simp [start_or_resume, pause_or_resume, ht]

/-- C8 witness: from a concrete WORK state, `start_or_resume` is a no-op
and `pause_or_resume` is exactly `pause`. -/
theorem C8_controller_dispatch_witness :
    sampleRunningWork.current_state = TimerState.WORK ∧
    start_or_resume sampleConfig sampleRunningWork = (sampleRunningWork, []) ∧
    pause_or_resume sampleRunningWork = pause sampleRunningWork :=
  ⟨rfl,
    ((C8_controller_dispatch sampleConfig sampleRunningWork).2.2.1 (Or.inl rfl)).1,
    ((C8_controller_dispatch sampleConfig sampleRunningWork).2.2.1 (Or.inl rfl)).2⟩

/-- `toString` on a non-negative integer agrees with `toString` on the Nat. -/
theorem toString_natCast (m : Nat) : toString (m : Int) = toString m := rfl

/-- `pad2` on a cast Nat is Nat zero-padding. -/
theorem pad2_natCast (q : Nat) :
    pad2 (q : Int) = if q < 10 then "0" ++ toString q else toString q := by
  unfold pad2
  by_cases h : q < 10
  · rw [if_pos ⟨by omega, by omega⟩, if_pos h, toString_natCast]
  · rw [if_neg (fun hc => absurd hc.2 (by omega)), if_neg h, toString_natCast]

/-- C9: for every non-negative countdown value, `get_time_display` renders
minutes = value div 60 and seconds = value mod 60, each zero-padded to two
digits; in particular 65 renders as "01:05" and 0 as "00:00". -/
theorem C9_time_display (n : Int) (hn : 0 ≤ n) :
    get_time_display n = spec_time_display n.toNat ∧
    get_time_display 65 = "01:05" ∧ get_time_display 0 = "00:00" := by
  refine ⟨?_, rfl, rfl⟩
  obtain ⟨m, rfl⟩ := Int.eq_ofNat_of_zero_le hn
  have hdiv : Int.fdiv (m : Int) 60 = ((m / 60 : Nat) : Int) := by
    exact_mod_cast (Int.ofNat_fdiv m 60).symm
  have hmod : Int.fmod (m : Int) 60 = ((m % 60 : Nat) : Int) := by
    exact_mod_cast (Int.ofNat_fmod m 60).symm
  show pad2 (Int.fdiv (m : Int) 60) ++ ":" ++ pad2 (Int.fmod (m : Int) 60)
      = spec_time_display ((m : Int)).toNat
  rw [hdiv, hmod, pad2_natCast, pad2_natCast]
  rfl

/-- C9 witness at the concrete value 65. -/
theorem C9_time_display_witness :
    0 ≤ (65 : Int) ∧ get_time_display 65 = spec_time_display (65 : Int).toNat :=
  ⟨by decide, (C9_time_display 65 (by decide)).1⟩

/-- C1: when the k-th work session (current_session = k) exhausts its
countdown, the break started is LONG_BREAK iff k > 0 and k mod N = 0
(otherwise SHORT_BREAK), because the session counter is incremented before
`start_break` computes completed = current_session - 1. -/
theorem C1_long_break_cadence (cfg : Config) (t : PomodoroTimer) (k : Int)
    (hN : 2 ≤ cfg.sessions_until_long_break) (hk : 1 ≤ k)
    (hst : t.current_state = TimerState.WORK)
    (hrem : t.remaining_seconds = 1)
    (hsess : t.current_session = k) :
    ((tick cfg t).1.current_state = TimerState.LONG_BREAK ↔
      (0 < k ∧ k % cfg.sessions_until_long_break = 0)) ∧
    ((tick cfg t).1.current_state = TimerState.SHORT_BREAK ↔
      ¬(0 < k ∧ k % cfg.sessions_until_long_break = 0)) := by
  by_cases hc : 0 < k ∧ cfg.sessions_until_long_break ∣ k <;>
    simp [tick, timer_finished, start_break, change_state, start_timer,
      hst, hrem, hsess, add_sub_cancel_right, hc]

/-- C1 witness: with N = 4, the fourth work-session completion starts a
long break. -/
theorem C1_long_break_cadence_witness :
    2 ≤ sampleConfig.sessions_until_long_break ∧ 1 ≤ (4 : Int) ∧
    sampleWork.current_state = TimerState.WORK ∧
    sampleWork.remaining_seconds = 1 ∧ sampleWork.current_session = 4 ∧
    (tick sampleConfig sampleWork).1.current_state = TimerState.LONG_BREAK :=
  ⟨by decide, by decide, rfl, rfl, rfl,
    (C1_long_break_cadence sampleConfig sampleWork 4 (by decide) (by decide)
      rfl rfl rfl).1.mpr (by decide)⟩

/-- C2: a tick from WORK with one second left emits time_changed(0) first,
completes the work session exactly once (session_completed(WORK)),
increments current_session by 1, and lands synchronously in a break state;
the full emission trace never contains state_changed(IDLE). -/
theorem C2_work_exhaustion (cfg : Config) (t : PomodoroTimer)
    (hst : t.current_state = TimerState.WORK)
    (hrem : t.remaining_seconds = 1) :
    ((tick cfg t).1.current_state = TimerState.SHORT_BREAK ∨
      (tick cfg t).1.current_state = TimerState.LONG_BREAK) ∧
    (tick cfg t).1.current_session = t.current_session + 1 ∧
    ((tick cfg t).2 = [Signal.time_changed 0,
        Signal.session_completed TimerState.WORK,
        Signal.state_changed TimerState.SHORT_BREAK,
        Signal.time_changed cfg.short_break_duration_seconds] ∨
      (tick cfg t).2 = [Signal.time_changed 0,
        Signal.session_completed TimerState.WORK,
        Signal.state_changed TimerState.LONG_BREAK,
        Signal.time_changed cfg.long_break_duration_seconds]) ∧
    Signal.state_changed TimerState.IDLE ∉ (tick cfg t).2 := by
  by_cases hc : 0 < t.current_session ∧
      cfg.sessions_until_long_break ∣ t.current_session <;>
    simp [tick, timer_finished, start_break, change_state, start_timer,
      hst, hrem, hc]

/-- C2 witness at a concrete WORK state with one second left. -/
theorem C2_work_exhaustion_witness :
    sampleWork.current_state = TimerState.WORK ∧
    sampleWork.remaining_seconds = 1 ∧
    (tick sampleConfig sampleWork).1.current_session =
      sampleWork.current_session + 1 :=
  ⟨rfl, rfl, (C2_work_exhaustion sampleConfig sampleWork rfl rfl).2.1⟩

/-- C7: a tick from a break state with one second left moves to IDLE, emits
session_completed with that break state exactly once, leaves
current_session unchanged, and starts no further countdown. -/
theorem C7_break_exhaustion (cfg : Config) (t : PomodoroTimer)
    (h : t.current_state = TimerState.SHORT_BREAK ∨
      t.current_state = TimerState.LONG_BREAK)
    (hrem : t.remaining_seconds = 1) :
    (tick cfg t).1.current_state = TimerState.IDLE ∧
    (tick cfg t).1.current_session = t.current_session ∧
    (tick cfg t).1.timer_active = false ∧
    (tick cfg t).2 = [Signal.time_changed 0,
      Signal.state_changed TimerState.IDLE,
      Signal.session_completed t.current_state] := by
  rcases h with h | h <;>
    simp [tick, timer_finished, start_break, change_state, start_timer, h, hrem]

/-- C7 witness at a concrete SHORT_BREAK state with one second left. -/
theorem C7_break_exhaustion_witness :
    sampleShortBreak.current_state = TimerState.SHORT_BREAK ∧
    sampleShortBreak.remaining_seconds = 1 ∧
    (tick sampleConfig sampleShortBreak).1.current_state = TimerState.IDLE ∧
    (tick sampleConfig sampleShortBreak).1.current_session =
      sampleShortBreak.current_session :=
  ⟨rfl, rfl, (C7_break_exhaustion sampleConfig sampleShortBreak (Or.inl rfl) rfl).1,
    (C7_break_exhaustion sampleConfig sampleShortBreak (Or.inl rfl) rfl).2.1⟩

/-- C3 counterexample: `reset` from a running WORK state sets
remaining_seconds to 0 but its complete emission trace is just
state_changed(IDLE) — no time_changed is emitted, refuting the claim that
every command setting a new countdown value (including reset) emits
time_changed with the new value. -/
theorem C3_counterexample_reset_is_silent :
    (reset sampleRunningWork).1.remaining_seconds = 0 ∧
    (reset sampleRunningWork).2 = [Signal.state_changed TimerState.IDLE] := by
  constructor <;> rfl

/-- C3 amended: the commands that start a countdown — start_work_session
from IDLE, start_break from WORK, resume from PAUSED — each emit
time_changed with the newly set remaining_seconds as their final signal;
reset sets remaining_seconds = 0 but emits no time_changed at all. -/
theorem C3_time_changed_on_new_countdown (cfg : Config) (t : PomodoroTimer) :
    (t.current_state = TimerState.IDLE →
      (start_work_session cfg t).1.remaining_seconds = cfg.work_duration_seconds ∧
      (start_work_session cfg t).2.getLast? =
        some (Signal.time_changed (start_work_session cfg t).1.remaining_seconds)) ∧
    (t.current_state = TimerState.WORK →
      (start_break cfg t).2.getLast? =
        some (Signal.time_changed (start_break cfg t).1.remaining_seconds)) ∧
    (t.current_state = TimerState.PAUSED →
      (resume t).1.remaining_seconds = t.remaining_seconds ∧
      (resume t).2.getLast? =
        some (Signal.time_changed (resume t).1.remaining_seconds)) ∧
    ((reset t).1.remaining_seconds = 0 ∧
      ∀ n : Int, Signal.time_changed n ∉ (reset t).2) := by
  refine ⟨fun h => ?_, fun h => ?_, fun h => ?_, ?_, fun n => ?_⟩
  · simp [start_work_session, change_state, start_timer, h]
  · by_cases hc : 1 < t.current_session ∧
        cfg.sessions_until_long_break ∣ (t.current_session - 1) <;>
      simp [start_break, change_state, start_timer, h, hc]
  · by_cases hp : t.previous_state = TimerState.PAUSED <;>
      simp [resume, change_state, start_timer, h, hp]
  · exact (C5_reset_reinitialises t).2.2.1
  · by_cases h : TimerState.IDLE = t.current_state <;>
      simp [reset, change_state, h]

/-- C3 witness: from a concrete IDLE state, starting a work session emits
time_changed with the newly loaded duration. -/
theorem C3_time_changed_on_new_countdown_witness :
    initTimer.current_state = TimerState.IDLE ∧
    (start_work_session sampleConfig initTimer).1.remaining_seconds =
      sampleConfig.work_duration_seconds ∧
    (start_work_session sampleConfig initTimer).2.getLast? =
      some (Signal.time_changed
        (start_work_session sampleConfig initTimer).1.remaining_seconds) :=
  ⟨rfl, ((C3_time_changed_on_new_countdown sampleConfig initTimer).1 rfl).1,
    ((C3_time_changed_on_new_countdown sampleConfig initTimer).1 rfl).2⟩

/-- The PAUSED invariant: while paused, the remembered previous state is a
counting-down state. -/
def paused_inv (t : PomodoroTimer) : Prop :=
  t.current_state = TimerState.PAUSED →
    t.previous_state = TimerState.WORK ∨ t.previous_state = TimerState.SHORT_BREAK ∨
      t.previous_state = TimerState.LONG_BREAK

/-- Every command preserves the PAUSED invariant. -/
theorem paused_inv_step (cfg : Config) (t : PomodoroTimer) (c : Command)
    (h : paused_inv t) : paused_inv (apply_command cfg t c).1 := by
  cases c <;> cases ht : t.current_state <;>
    simp_all [paused_inv, apply_command, start_work_session, start_break, pause,
      resume, reset, tick, timer_finished, change_state, start_timer] <;>
    split_ifs <;> simp_all

/-- The PAUSED invariant holds in every reachable state. -/
theorem reachable_paused_inv (cfg : Config) (t : PomodoroTimer)
    (h : Reachable cfg t) : paused_inv t := by
  induction h with
  | init => intro hx; exact absurd hx (by decide)
  | step t c _ ih => exact paused_inv_step cfg t c ih

/-- C10: in every reachable state, PAUSED implies previous_state is a
counting-down state, so `resume` from PAUSED always lands in WORK,
SHORT_BREAK or LONG_BREAK — never IDLE or PAUSED. -/
theorem C10_paused_invariant (cfg : Config) (t : PomodoroTimer)
    (h : Reachable cfg t) :
    (t.current_state = TimerState.PAUSED →
      t.previous_state = TimerState.WORK ∨
      t.previous_state = TimerState.SHORT_BREAK ∨
      t.previous_state = TimerState.LONG_BREAK) ∧
    (t.current_state = TimerState.PAUSED →
      (resume t).1.current_state = TimerState.WORK ∨
      (resume t).1.current_state = TimerState.SHORT_BREAK ∨
      (resume t).1.current_state = TimerState.LONG_BREAK) := by
  have hinv := reachable_paused_inv cfg t h
  refine ⟨hinv, fun hp => ?_⟩
  rcases hinv hp with h1 | h1 | h1 <;>
    simp [resume, change_state, start_timer, hp, h1]

/-- A concrete reachable PAUSED state: start a work session, then pause. -/
def pausedReached : PomodoroTimer :=
  (apply_command sampleConfig
    (apply_command sampleConfig initTimer Command.startWork).1 Command.pauseCmd).1

/-- C10 witness at the concrete reachable PAUSED state. -/
theorem C10_paused_invariant_witness :
    pausedReached.current_state = TimerState.PAUSED ∧
    (pausedReached.previous_state = TimerState.WORK ∨
      pausedReached.previous_state = TimerState.SHORT_BREAK ∨
      pausedReached.previous_state = TimerState.LONG_BREAK) :=
  ⟨rfl,
    (C10_paused_invariant sampleConfig pausedReached
      (Reachable.step _ Command.pauseCmd
        (Reachable.step _ Command.startWork Reachable.init))).1 rfl⟩

end Pymodoro
